import Mathlib

/-!
Verification of the rust-101 exercises (parts 00-03): the minimum-of-a-vector
reduction, the tagged optional type, and the fault-tolerant line reader.

Machine integers (`i32`) are embedded as `Int`; the code performs no
arithmetic on them beyond signed comparison, which on in-range values agrees
with the comparison of the represented integers, so no modular wrap is needed.
-/

set_option autoImplicit false

namespace Part00

/-- The two-variant result type of part00 (`enum NumberOrNothing`). -/
inductive NumberOrNothing : Type
  | Number (n : Int)
  | Nothing
deriving DecidableEq

/-- `min_i32(a, b)` from part00: `if a < b { a } else { b }`. -/
def min_i32 (a b : Int) : Int :=
  if a < b then a else b

/-- One iteration of part00's `for el in vec` loop body. -/
def step (min : NumberOrNothing) (el : Int) : NumberOrNothing :=
  match min with
  | NumberOrNothing.Nothing => NumberOrNothing.Number el
  | NumberOrNothing.Number n => NumberOrNothing.Number (min_i32 n el)

/-- `vec_min` from part00: a left-to-right fold of `step` starting at `Nothing`. -/
def vec_min (vec : List Int) : NumberOrNothing :=
  vec.foldl step NumberOrNothing.Nothing

/-- The line printed by part00's `print_number_or_nothing` (note the source
spells the `Nothing` message with a capitalization slip: `THe`). -/
def print_number_or_nothing : NumberOrNothing → String
  | NumberOrNothing.Nothing => "THe number is: <nothing>"
  | NumberOrNothing.Number n => "The number is: " ++ toString n

end Part00

namespace Part01

/-- The two-variant result type of part01. -/
inductive NumberOrNothing : Type
  | Number (n : Int)
  | Nothing
deriving DecidableEq

/-- `min_32(a, b)`, the helper nested inside part01's `vec_min`. -/
def min_32 (a b : Int) : Int :=
  if a < b then a else b

/-- One iteration of part01's loop: `min = Number(match min { Nothing => e, Number(n) => min_32(n, e) })`. -/
def step (min : NumberOrNothing) (e : Int) : NumberOrNothing :=
  NumberOrNothing.Number (match min with
    | NumberOrNothing.Nothing => e
    | NumberOrNothing.Number n => min_32 n e)

/-- `vec_min` from part01. -/
def vec_min (v : List Int) : NumberOrNothing :=
  v.foldl step NumberOrNothing.Nothing

/-- The line printed by part01's `NumberOrNothing::print`. -/
def NumberOrNothing.print : NumberOrNothing → String
  | NumberOrNothing.Nothing => "The number is: <nothing>"
  | NumberOrNothing.Number n => "The number is: " ++ toString n

end Part01

namespace Part02

/-- The generic two-variant container of part02 (`enum SomethingOrNothing<T>`). -/
inductive SomethingOrNothing (T : Type) : Type
  | Something (t : T)
  | Nothing
deriving DecidableEq

/-- `SomethingOrNothing::new`: converts a native `Option` into the tagged type. -/
def SomethingOrNothing.new {T : Type} (o : Option T) : SomethingOrNothing T :=
  match o with
  | none => SomethingOrNothing.Nothing
  | some t => SomethingOrNothing.Something t

/-- `SomethingOrNothing::to_option`: the inverse conversion. -/
def SomethingOrNothing.to_option {T : Type} : SomethingOrNothing T → Option T
  | SomethingOrNothing.Nothing => none
  | SomethingOrNothing.Something t => some t

/-- The `Minimum` trait of part02: a single method `min(self, b)`. -/
structure Minimum (T : Type) : Type where
  min : T → T → T

/-- One iteration of part02's generic loop:
`min = Something(match min { Nothing => e, Something(n) => e.min(n) })`. -/
def step {T : Type} (M : Minimum T) (min : SomethingOrNothing T) (e : T) :
    SomethingOrNothing T :=
  SomethingOrNothing.Something (match min with
    | SomethingOrNothing.Nothing => e
    | SomethingOrNothing.Something n => M.min e n)

/-- The generic `vec_min` of part02. -/
def vec_min {T : Type} (M : Minimum T) (v : List T) : SomethingOrNothing T :=
  v.foldl (step M) SomethingOrNothing.Nothing

/-- `impl Minimum for i32`: `if self < b { self } else { b }`. -/
def i32Minimum : Minimum Int :=
  ⟨fun self b => if self < b then self else b⟩

/-- The shape of the source's `Minimum` implementation, stated over any linear
order: pick the left operand when it is strictly smaller. `i32Minimum` is
exactly this at `Int`. -/
def ltMin (T : Type) [LinearOrder T] : Minimum T :=
  ⟨fun self b => if self < b then self else b⟩

/-- The line printed by part02's `NumberOrNothing::print` (on the alias
`NumberOrNothing = SomethingOrNothing<i32>`). -/
def print : SomethingOrNothing Int → String
  | SomethingOrNothing.Nothing => "The number is: <nothing>"
  | SomethingOrNothing.Something n => "The number is: " ++ toString n

end Part02

namespace Part03

/-- Rust's `char::is_whitespace`: the Unicode White_Space code points. -/
def isRustWhitespace (c : Char) : Bool :=
  [0x09, 0x0A, 0x0B, 0x0C, 0x0D, 0x20, 0x85, 0xA0, 0x1680,
   0x2000, 0x2001, 0x2002, 0x2003, 0x2004, 0x2005, 0x2006, 0x2007,
   0x2008, 0x2009, 0x200A, 0x2028, 0x2029, 0x202F, 0x205F, 0x3000].contains c.toNat

/-- Rust's `str::trim`: strip leading and trailing whitespace. -/
def trim (s : List Char) : List Char :=
  ((s.dropWhile isRustWhitespace).reverse.dropWhile isRustWhitespace).reverse

/-- Rust's `str::parse::<i32>` (`i32::from_str`): an optional `+` or `-` sign
followed by one or more ASCII digits, valued in the signed 32-bit range;
anything else is a parse error (`none`). -/
def parse_i32 (s : List Char) : Option Int :=
  let signDigits : Int × List Char :=
    match s with
    | '+' :: rest => (1, rest)
    | '-' :: rest => (-1, rest)
    | _ => (1, s)
  let sign := signDigits.1
  let digits := signDigits.2
  if digits = [] then none
  else if digits.all Char.isDigit then
    let n : Nat := digits.foldl (fun acc c => 10 * acc + (c.toNat - 48)) 0
    let v : Int := sign * (n : Int)
    if -(2 ^ 31) ≤ v ∧ v ≤ 2 ^ 31 - 1 then some v else none
  else none

/-- The diagnostic line part03 prints for a malformed input line. -/
def diag : String := "What did I say about numbers?"

/-- One iteration of part03's read loop on a successfully read line: parse the
trimmed text; on success push the number, on failure emit the diagnostic.
The state is the vector built so far paired with the diagnostics emitted. -/
def step (st : List Int × List String) (line : String) : List Int × List String :=
  match parse_i32 (trim line.data) with
  | some num => (st.1 ++ [num], st.2)
  | none => (st.1, st.2 ++ [diag])

/-- `read_vec` from part03, on a stream whose line reads all succeed: returns
the parsed values in read order together with the diagnostics emitted. -/
def read_vec (lines : List String) : List Int × List String :=
  lines.foldl step ([], [])

/-- `read_vec` on a stream whose line reads may fail (`io::Result<String>`).
The source calls `line.unwrap()`, which panics on a failed read; a panic is
modelled as `none` (the function never returns a value). -/
def read_vec_io : List Int × List String → List (Except String String) →
    Option (List Int × List String)
  | st, [] => some st
  | _, Except.error _ :: _ => none
  | st, Except.ok line :: rest => read_vec_io (step st line) rest

end Part03

namespace Part00

/-- Rename part00's result constructors into part02's generic type
(`Number` becomes `Something`), identity on the payload. -/
def NumberOrNothing.toPart02 : NumberOrNothing → Part02.SomethingOrNothing Int
  | NumberOrNothing.Nothing => Part02.SomethingOrNothing.Nothing
  | NumberOrNothing.Number n => Part02.SomethingOrNothing.Something n

end Part00

namespace Part01

/-- Rename part01's result constructors into part02's generic type. -/
def NumberOrNothing.toPart02 : NumberOrNothing → Part02.SomethingOrNothing Int
  | NumberOrNothing.Nothing => Part02.SomethingOrNothing.Nothing
  | NumberOrNothing.Number n => Part02.SomethingOrNothing.Something n

end Part01

namespace Part02

lemma i32Minimum_eq_ltMin : i32Minimum = ltMin Int := rfl

lemma pick_eq_min {T : Type} [LinearOrder T] (e n : T) :
    (ltMin T).min e n = Min.min n e := by
  show (if e < n then e else n) = Min.min n e
  rcases lt_or_le e n with h | h
  · rw [if_pos h, min_eq_right h.le]
  · rw [if_neg (not_lt.2 h), min_eq_left h]

lemma step_ltMin_something {T : Type} [LinearOrder T] (n e : T) :
    step (ltMin T) (SomethingOrNothing.Something n) e =
      SomethingOrNothing.Something (Min.min n e) := by
  show SomethingOrNothing.Something ((ltMin T).min e n) = _
  rw [pick_eq_min]

lemma foldl_step_ltMin {T : Type} [LinearOrder T] :
    ∀ (v : List T) (n : T),
      v.foldl (step (ltMin T)) (SomethingOrNothing.Something n) =
        SomethingOrNothing.Something (v.foldl Min.min n)
  | [], _ => rfl
  | x :: v, n => by
      simp only [List.foldl_cons, step_ltMin_something]
      exact foldl_step_ltMin v (Min.min n x)

lemma foldl_min_mem {T : Type} [LinearOrder T] :
    ∀ (v : List T) (n : T), v.foldl Min.min n ∈ n :: v
  | [], n => List.mem_singleton.mpr rfl
  | x :: v, n => by
      simp only [List.foldl_cons]
      rcases List.mem_cons.mp (foldl_min_mem v (Min.min n x)) with h1 | h1
      · rw [h1]
        rcases min_choice n x with hc | hc
        · rw [hc]; exact List.mem_cons_self _ _
        · rw [hc]; exact List.mem_cons_of_mem _ (List.mem_cons_self _ _)
      · exact List.mem_cons_of_mem _ (List.mem_cons_of_mem _ h1)

lemma foldl_min_le {T : Type} [LinearOrder T] :
    ∀ (v : List T) (n : T),
      v.foldl Min.min n ≤ n ∧ ∀ e ∈ v, v.foldl Min.min n ≤ e
  | [], n => ⟨le_refl n, fun e he => absurd he (List.not_mem_nil e)⟩
  | x :: v, n => by
      simp only [List.foldl_cons]
      obtain ⟨h1, h2⟩ := foldl_min_le v (Min.min n x)
      refine ⟨h1.trans (min_le_left n x), fun e he => ?_⟩
      rcases List.mem_cons.mp he with rfl | hm
      · exact h1.trans (min_le_right n e)
      · exact h2 e hm

lemma vec_min_ltMin_cons {T : Type} [LinearOrder T] (x : T) (v : List T) :
    vec_min (ltMin T) (x :: v) =
      SomethingOrNothing.Something (v.foldl Min.min x) := by
  simp only [vec_min, List.foldl_cons]
  exact foldl_step_ltMin v x

lemma vec_min_spec {T : Type} [LinearOrder T] :
    ∀ (v : List T), v ≠ [] →
      ∃ m, vec_min (ltMin T) v = SomethingOrNothing.Something m ∧
        m ∈ v ∧ ∀ e ∈ v, m ≤ e
  | [], hv => absurd rfl hv
  | x :: v, _ => by
      refine ⟨v.foldl Min.min x, vec_min_ltMin_cons x v, foldl_min_mem v x,
        fun e he => ?_⟩
      obtain ⟨h1, h2⟩ := foldl_min_le v x
      rcases List.mem_cons.mp he with rfl | hm
      · exact h1
      · exact h2 e hm

end Part02

namespace Part00

lemma min_i32_eq_min (a b : Int) : min_i32 a b = Min.min a b := by
  show (if a < b then a else b) = Min.min a b
  rcases lt_or_le a b with h | h
  · rw [if_pos h, min_eq_left h.le]
  · rw [if_neg (not_lt.2 h), min_eq_right h]

lemma foldl_step_number00 :
    ∀ (v : List Int) (n : Int),
      v.foldl step (NumberOrNothing.Number n) =
        NumberOrNothing.Number (v.foldl Min.min n)
  | [], _ => rfl
  | x :: v, n => by
      simp only [List.foldl_cons]
      rw [show step (NumberOrNothing.Number n) x =
            NumberOrNothing.Number (Min.min n x) by
          show NumberOrNothing.Number (min_i32 n x) = _
          rw [min_i32_eq_min]]
      exact foldl_step_number00 v (Min.min n x)

end Part00

namespace Part01

lemma min_32_eq_min (a b : Int) : min_32 a b = Min.min a b := by
  show (if a < b then a else b) = Min.min a b
  rcases lt_or_le a b with h | h
  · rw [if_pos h, min_eq_left h.le]
  · rw [if_neg (not_lt.2 h), min_eq_right h]

lemma foldl_step_number01 :
    ∀ (v : List Int) (n : Int),
      v.foldl step (NumberOrNothing.Number n) =
        NumberOrNothing.Number (v.foldl Min.min n)
  | [], _ => rfl
  | x :: v, n => by
      simp only [List.foldl_cons]
      rw [show step (NumberOrNothing.Number n) x =
            NumberOrNothing.Number (Min.min n x) by
          show NumberOrNothing.Number (min_32 n x) = _
          rw [min_32_eq_min]]
      exact foldl_step_number01 v (Min.min n x)

end Part01

namespace Part03

lemma read_vec_foldl :
    ∀ (lines : List String) (vs : List Int) (ds : List String),
      lines.foldl step (vs, ds) =
        (vs ++ lines.filterMap (fun l => parse_i32 (trim l.data)),
         ds ++ (lines.filter (fun l => (parse_i32 (trim l.data)).isNone)).map
           (fun _ => diag))
  | [], vs, ds => by simp
  | l :: lines, vs, ds => by
      simp only [List.foldl_cons, List.filterMap_cons, List.filter_cons]
      cases h : parse_i32 (trim l.data) with
      | none =>
          simp only [step, h, Option.isNone_none]
          rw [read_vec_foldl lines vs (ds ++ [diag])]
          simp
      | some num =>
          simp only [step, h, Option.isNone_some]
          rw [read_vec_foldl lines (vs ++ [num]) ds]
          simp

lemma read_vec_io_error :
    ∀ (pre : List String) (st : List Int × List String) (e : String)
      (post : List (Except String String)),
      read_vec_io st (pre.map Except.ok ++ Except.error e :: post) = none
  | [], _, _, _ => rfl
  | l :: pre, st, e, post => by
      simp only [List.map_cons, List.cons_append, read_vec_io]
      exact read_vec_io_error pre (step st l) e post

end Part03

/-- C1: for every linearly ordered type carrying the source-shaped `Minimum`
implementation (`i32Minimum` is definitionally `ltMin Int`), `vec_min` on a
non-empty sequence returns `Something m` where `m` is an element of the
sequence and `m ≤ e` for every element `e`. -/
theorem vec_min_returns_minimum (T : Type) [LinearOrder T] (v : List T)
    (hv : v ≠ []) :
    ∃ m, Part02.vec_min (Part02.ltMin T) v = Part02.SomethingOrNothing.Something m ∧
      m ∈ v ∧ ∀ e ∈ v, m ≤ e :=
  Part02.vec_min_spec v hv

/-- C1 witness: the `i32` instance on the vector `[3, 1, 2]`. -/
theorem vec_min_returns_minimum_witness :
    ([3, 1, 2] : List Int) ≠ [] ∧
      ∃ m, Part02.vec_min Part02.i32Minimum [3, 1, 2] =
          Part02.SomethingOrNothing.Something m ∧
        m ∈ ([3, 1, 2] : List Int) ∧ ∀ e ∈ ([3, 1, 2] : List Int), m ≤ e :=
  ⟨by decide, vec_min_returns_minimum Int [3, 1, 2] (by decide)⟩

/-- C2: over the integers, `vec_min` returns `Nothing` iff the sequence is
empty; a single-element sequence yields `Something` of that element. -/
theorem vec_min_nothing_iff_empty (v : List Int) :
    (Part02.vec_min Part02.i32Minimum v = Part02.SomethingOrNothing.Nothing ↔
      v = []) ∧
    ∀ a : Int, Part02.vec_min Part02.i32Minimum [a] =
      Part02.SomethingOrNothing.Something a := by
  refine ⟨?_, fun a => rfl⟩
  cases v with
  | nil => exact ⟨fun _ => rfl, fun _ => rfl⟩
  | cons x t =>
      rw [Part02.i32Minimum_eq_ltMin, Part02.vec_min_ltMin_cons]
      exact ⟨fun h => Part02.SomethingOrNothing.noConfusion h,
        fun h => List.noConfusion h⟩

/-- C3: `read_vec` is total on any list of successfully read lines and is
fully characterised: the resulting values are exactly the successfully parsed
lines in read order (a line whose trimmed text fails to parse as an `i32`
contributes no value), and exactly one diagnostic notice is emitted per
malformed line; reading always continues to the next line. -/
theorem read_vec_characterization (lines : List String) :
    Part03.read_vec lines =
      (lines.filterMap (fun l => Part03.parse_i32 (Part03.trim l.data)),
       (lines.filter
         (fun l => (Part03.parse_i32 (Part03.trim l.data)).isNone)).map
         (fun _ => Part03.diag)) := by
  show lines.foldl Part03.step ([], []) = _
  rw [Part03.read_vec_foldl]
  simp

/-- C4 (code bug in part00): part01 and part02 render exactly the claimed
strings, and every `Something`/`Number` value renders as
"The number is: " followed by the canonical decimal rendering (`toString` on
`Int`); but part00's `Nothing` branch prints "THe number is: <nothing>"
(capitalization slip), which differs from the claimed
"The number is: <nothing>". -/
theorem display_strings :
    Part00.print_number_or_nothing Part00.NumberOrNothing.Nothing =
        "THe number is: <nothing>" ∧
    "THe number is: <nothing>" ≠ "The number is: <nothing>" ∧
    Part01.NumberOrNothing.print Part01.NumberOrNothing.Nothing =
        "The number is: <nothing>" ∧
    Part02.print Part02.SomethingOrNothing.Nothing =
        "The number is: <nothing>" ∧
    (∀ n : Int, Part00.print_number_or_nothing (Part00.NumberOrNothing.Number n) =
        "The number is: " ++ toString n) ∧
    (∀ n : Int, Part01.NumberOrNothing.print (Part01.NumberOrNothing.Number n) =
        "The number is: " ++ toString n) ∧
    ∀ n : Int, Part02.print (Part02.SomethingOrNothing.Something n) =
        "The number is: " ++ toString n :=
  ⟨rfl, by decide, rfl, rfl, fun _ => rfl, fun _ => rfl, fun _ => rfl⟩

/-- C5 counterexample: on the stream `[ok "3", error, ok "4"]` the claim says
`read_vec` still returns the accumulated `([3], [])`; the code instead
`unwrap`s the failed read and panics (no value is returned, modelled `none`). -/
theorem read_vec_io_counterexample :
    Part03.read_vec_io ([], [])
        [Except.ok "3", Except.error "broken stream", Except.ok "4"] = none ∧
    (none : Option (List Int × List String)) ≠ some ([3], []) :=
  ⟨rfl, by decide⟩

/-- C5 amended: if any stream-level line read fails, `read_vec` never
returns — the `unwrap` of the failed read panics, aborting the read loop and
discarding the values accumulated so far. -/
theorem read_vec_io_panics_on_error (pre : List String) (e : String)
    (post : List (Except String String)) :
    Part03.read_vec_io ([], []) (pre.map Except.ok ++ Except.error e :: post) =
      none :=
  Part03.read_vec_io_error pre ([], []) e post

/-- C6: on the input lines "18", "5", "abc", "7", "" and "9", "27", the reader
returns exactly `[18, 5, 7, 9, 27]` and emits exactly two diagnostic notices
(for "abc" and for the empty line). -/
theorem read_vec_sample_run :
    Part03.read_vec ["18", "5", "abc", "7", "", "9", "27"] =
      ([18, 5, 7, 9, 27], [Part03.diag, Part03.diag]) := rfl

/-- C7: all three comparison helpers (the `Minimum` implementation for `i32`,
`min_i32` of part00 and `min_32` of part01) return `a` when `a < b` and `b`
otherwise. -/
theorem min_functions_pick_smaller (a b : Int) :
    (a < b → Part02.i32Minimum.min a b = a ∧ Part00.min_i32 a b = a ∧
      Part01.min_32 a b = a) ∧
    (¬a < b → Part02.i32Minimum.min a b = b ∧ Part00.min_i32 a b = b ∧
      Part01.min_32 a b = b) :=
  ⟨fun h => ⟨if_pos h, if_pos h, if_pos h⟩,
   fun h => ⟨if_neg h, if_neg h, if_neg h⟩⟩

/-- C7 witness: both branches at concrete inputs. -/
theorem min_functions_pick_smaller_witness :
    (Part02.i32Minimum.min 1 2 = 1 ∧ Part00.min_i32 1 2 = 1 ∧
      Part01.min_32 1 2 = 1) ∧
    (Part02.i32Minimum.min 5 3 = 3 ∧ Part00.min_i32 5 3 = 3 ∧
      Part01.min_32 5 3 = 3) :=
  ⟨(min_functions_pick_smaller 1 2).1 (by decide),
   (min_functions_pick_smaller 5 3).2 (by decide)⟩

/-- C8: `to_option` is a left inverse of `new` for every type and every native
optional; in particular the round trip on `some 5` returns `some 5`. -/
theorem to_option_new_round_trip :
    (∀ (T : Type) (o : Option T),
      (Part02.SomethingOrNothing.new o).to_option = o) ∧
    (Part02.SomethingOrNothing.new (some (5 : Int))).to_option = some 5 :=
  ⟨fun T o => by cases o <;> rfl, rfl⟩

/-- C9: permuting an integer sequence never changes the result of `vec_min`
(neither the constructor nor the unwrapped minimum value). -/
theorem vec_min_perm_invariant (s t : List Int) (h : s.Perm t) :
    Part02.vec_min Part02.i32Minimum s = Part02.vec_min Part02.i32Minimum t := by
  rw [Part02.i32Minimum_eq_ltMin]
  cases s with
  | nil => rw [h.symm.eq_nil]
  | cons x s' =>
      have ht : t ≠ [] := fun hth => by
        rw [hth] at h
        exact List.cons_ne_nil x s' h.eq_nil
      obtain ⟨m, hm, hmem, hle⟩ :=
        Part02.vec_min_spec (x :: s') (List.cons_ne_nil x s')
      obtain ⟨m', hm', hmem', hle'⟩ := Part02.vec_min_spec t ht
      rw [hm, hm',
        le_antisymm (hle m' (h.mem_iff.mpr hmem')) (hle' m (h.mem_iff.mp hmem))]

/-- C9 witness: `[3, 1, 2]` is a permutation of `[1, 2, 3]` and both reduce to
the same result. -/
theorem vec_min_perm_invariant_witness :
    ([3, 1, 2] : List Int).Perm [1, 2, 3] ∧
      Part02.vec_min Part02.i32Minimum [3, 1, 2] =
        Part02.vec_min Part02.i32Minimum [1, 2, 3] :=
  ⟨by decide, vec_min_perm_invariant [3, 1, 2] [1, 2, 3] (by decide)⟩

/-- C10: the three `vec_min` implementations (part00, part01, and part02
instantiated at `i32`) compute the same function on every integer vector, up
to renaming the `Number` constructor to `Something` — in spite of part02
passing the arguments to the comparison in swapped order (`e.min(n)`). -/
theorem vec_min_three_parts_agree (v : List Int) :
    (Part00.vec_min v).toPart02 = Part02.vec_min Part02.i32Minimum v ∧
    (Part01.vec_min v).toPart02 = Part02.vec_min Part02.i32Minimum v := by
  rw [Part02.i32Minimum_eq_ltMin]
  cases v with
  | nil => exact ⟨rfl, rfl⟩
  | cons x t =>
      rw [Part02.vec_min_ltMin_cons]
      constructor
      · show (t.foldl Part00.step
            (Part00.step Part00.NumberOrNothing.Nothing x)).toPart02 = _
        rw [show Part00.step Part00.NumberOrNothing.Nothing x =
              Part00.NumberOrNothing.Number x from rfl,
          Part00.foldl_step_number00]
        rfl
      · show (t.foldl Part01.step
            (Part01.step Part01.NumberOrNothing.Nothing x)).toPart02 = _
        rw [show Part01.step Part01.NumberOrNothing.Nothing x =
              Part01.NumberOrNothing.Number x from rfl,
          Part01.foldl_step_number01]
        rfl
